import Mathlib

/-
Verification of the still-render flow (`packages/cli/src/render-flows/still.ts`).

The flow is embedded as a pure function over an explicit input describing the
job configuration, the relevant part of the filesystem, and the behaviour of
the external collaborators (browser, bundler, server, composition resolver,
renderer).  The flow's observable behaviour is captured as a record holding
the ordered event trace (following the source's `await` structure), the
cleanup registrations, the sequence of writes to `aggregate.rendering`, the
resulting filesystem, and the typed result.

Collaborators that are imported by the source file but whose code is not part
of this repository snapshot (`determineFinalStillImageFormat`,
`getOutputLocation`, `getAndValidateAbsoluteOutputFile`, the cleanup
registry behind `addCleanupCallback`) are modelled from the specification;
their definitions say so in their doc comments.
-/

set_option maxHeartbeats 1000000

namespace RemotionStill

/-! ## Paths and filesystem -/

/-- A filesystem path, as a list of components from the root. -/
abbrev FsPath := List String

/-- The part of the filesystem the flow observes: the set of existing files
and the set of existing directories. -/
structure FS where
  files : List FsPath
  dirs : List FsPath
deriving DecidableEq, Repr

/-- All prefixes of a path, from the empty path up to the path itself.
These are the directories that must exist for the path to be a valid
directory location. -/
def prefixesOf (p : FsPath) : List FsPath :=
  (List.range (p.length + 1)).map (fun n => p.take n)

/-- Modelled from the spec: node's `mkdirSync(..., {recursive: true})` as
invoked by the source on `path.join(absoluteOutputLocation, '..')` — it
creates the directory and every missing ancestor and is safe to call when the
directories are already present. -/
def mkdirRecursive (p : FsPath) (fs : FS) : FS :=
  { fs with dirs := fs.dirs ++ (prefixesOf p).filter (fun q => decide (q ∉ fs.dirs)) }

/-! ## Still image formats and the format decision -/

/-- The still image formats the CLI supports. -/
inductive StillFormat
  | png
  | jpeg
  | webp
  | pdf
deriving DecidableEq, Repr

/-- The file extension of each still format. -/
def stillFormatExtension : StillFormat → String
  | StillFormat.png => "png"
  | StillFormat.jpeg => "jpeg"
  | StillFormat.webp => "webp"
  | StillFormat.pdf => "pdf"

/-- The decision tier that produced the chosen format, recorded for
diagnostic display. -/
inductive FormatSource
  | explicitOverride
  | configDefault
  | outNameExtension
  | builtinDefault
deriving DecidableEq, Repr

/-- The characters after the last dot of a filename, if any. -/
def afterLastDot : List Char → Option (List Char)
  | [] => none
  | c :: cs =>
    match afterLastDot cs with
    | some r => some r
    | none => if c = '.' then some cs else none

/-- Map a filename extension to a still format, if it denotes one. -/
def formatFromExtensionChars (e : List Char) : Option StillFormat :=
  if e = "png".data then some StillFormat.png
  else if e = "jpeg".data then some StillFormat.jpeg
  else if e = "jpg".data then some StillFormat.jpeg
  else if e = "webp".data then some StillFormat.webp
  else if e = "pdf".data then some StillFormat.pdf
  else none

/-- Infer a still format from an explicit output filename, if one was given
and its extension denotes a format. -/
def inferFormatFromOutName (outName : Option String) : Option StillFormat :=
  match outName with
  | none => none
  | some s =>
    match afterLastDot s.data with
    | none => none
    | some e => formatFromExtensionChars e

/-- Generic first-defined-wins resolution over an ordered list of optional
candidates, each carrying the label of its tier; the fallback is used when no
tier is defined. -/
def firstDefined :
    List (Option StillFormat × FormatSource) → StillFormat × FormatSource →
      StillFormat × FormatSource
  | [], fb => fb
  | (some f, l) :: _, _ => (f, l)
  | (none, _) :: rest, fb => firstDefined rest fb

/-- Modelled from the spec: `determineFinalStillImageFormat` (imported by the
source from `../determine-image-format`, which is not part of this snapshot).
A pure priority merge: explicit caller/CLI override, then the project-level
configured default, then inference from an explicit output filename's
extension, then the built-in fallback `png`; the winning tier is recorded as
the source label. -/
def determineFinalStillImageFormat (explicitFormat configFormat : Option StillFormat)
    (outName : Option String) : StillFormat × FormatSource :=
  match explicitFormat with
  | some f => (f, FormatSource.explicitOverride)
  | none =>
    match configFormat with
    | some f => (f, FormatSource.configDefault)
    | none =>
      match inferFormatFromOutName outName with
      | some f => (f, FormatSource.outNameExtension)
      | none => (StillFormat.png, FormatSource.builtinDefault)

/-- Modelled from the spec: `getOutputLocation` (imported by the source from
`../user-passed-output-location`, which is not part of this snapshot).  When
the user passed an output location it is used; otherwise the relative output
location is the composition id plus the chosen format's extension. -/
def getOutputLocation (compositionId : String) (defaultExtension : StillFormat)
    (userPassedOutput : Option String) : String :=
  match userPassedOutput with
  | some s => s
  | none => compositionId ++ "." ++ stillFormatExtension defaultExtension

/-! ## Cleanup registry -/

/-- Modelled from the spec: the cleanup registry behind the caller-supplied
`addCleanupCallback` hook.  `register` appends; `runAll` fires the callbacks
in reverse registration order exactly once and is idempotent. -/
structure CleanupRegistry (α : Type) where
  callbacks : List α
  hasRun : Bool
deriving DecidableEq, Repr

/-- Register one cleanup callback: append it to the ordered list. -/
def CleanupRegistry.register {α : Type} (r : CleanupRegistry α) (cb : α) :
    CleanupRegistry α :=
  { r with callbacks := r.callbacks ++ [cb] }

/-- A registry holding the given callbacks, registered left to right. -/
def registerAll {α : Type} (cbs : List α) : CleanupRegistry α :=
  cbs.foldl CleanupRegistry.register { callbacks := [], hasRun := false }

/-- Run all registered callbacks.  Returns the new registry state and the
list of callbacks executed by this invocation, in execution order.  A second
invocation performs no work. -/
def CleanupRegistry.runAll {α : Type} (r : CleanupRegistry α) :
    CleanupRegistry α × List α :=
  if r.hasRun then (r, [])
  else ({ r with hasRun := true }, r.callbacks.reverse)

/-- Run `runAll` `n` times; returns the final registry state and the
concatenation of all callbacks executed over the `n` invocations. -/
def runAllTimes {α : Type} (n : Nat) (r : CleanupRegistry α) :
    CleanupRegistry α × List α :=
  match n with
  | 0 => (r, [])
  | Nat.succ m =>
    let p := r.runAll
    let q := runAllTimes m p.1
    (q.1, p.2 ++ q.2)

/-! ## Progress reporting -/

/-- The result of `makeRenderingAndStitchingProgress`: the full progress-bar
text, the plain message, and the numeric progress value. -/
structure ProgressOutput where
  output : String
  message : String
  progress : Nat
deriving DecidableEq, Repr

/-- The structured event handed to the external `onProgress` observer:
`{message, value: progress, ...aggregate}`. -/
structure ObserverEvent (A : Type) where
  message : String
  value : Nat
  snapshot : A
deriving DecidableEq, Repr

/-- One `renderProgress.update(text, newline)` call. -/
structure ConsoleUpdate where
  text : String
  newline : Bool
deriving DecidableEq, Repr

/-- The source's `updateRenderProgress` closure: one evaluation of
`makeRenderingAndStitchingProgress` over the aggregate produces both the
console update (the message when updates do not overwrite, the full output
otherwise; nothing when `printToConsole` is false) and the structured
observer event. -/
def updateRenderProgress {A : Type} (make : A → Bool → ProgressOutput)
    (updatesDontOverwrite : Bool) (aggregate : A)
    (newline printToConsole isUsingParallelEncoding : Bool) :
    Option ConsoleUpdate × ObserverEvent A :=
  let r := make aggregate isUsingParallelEncoding
  ((if printToConsole then
      some { text := if updatesDontOverwrite then r.message else r.output,
             newline := newline }
    else none),
   { message := r.message, value := r.progress, snapshot := aggregate })

/-! ## The rendering-state writes -/

/-- The value assigned to `aggregate.rendering` by the flow. -/
structure RenderingState where
  frames : Nat
  totalFrames : Nat
  doneIn : Option Nat
  timeRemainingInMilliseconds : Option Nat
deriving DecidableEq, Repr

/-- `frames` is non-decreasing along the list of writes. -/
def framesMonotone : List RenderingState → Bool
  | [] => true
  | [_] => true
  | a :: b :: t => decide (a.frames ≤ b.frames) && framesMonotone (b :: t)

/-- The number of adjacent write pairs where `frames` moves from `0` to
`totalFrames`. -/
def transitionCount : List RenderingState → Nat
  | a :: b :: t =>
    (if a.frames = 0 ∧ b.frames = b.totalFrames ∧ a.frames < b.frames then 1 else 0)
      + transitionCount (b :: t)
  | _ => 0

/-- The number of writes whose `doneIn` is non-null. -/
def doneInWriteCount (ws : List RenderingState) : Nat :=
  ws.countP (fun w => w.doneIn.isSome)

/-- The rendering-state invariant exactly as the claim states it, over the
full list of writes of one execution. -/
def stillRenderingInvariant (ws : List RenderingState) : Prop :=
  framesMonotone ws = true ∧
  (∀ w ∈ ws, w.totalFrames = 1) ∧
  (∀ w ∈ ws, (w.doneIn.isSome = true ↔ w.frames = w.totalFrames)) ∧
  transitionCount ws = 1 ∧
  doneInWriteCount ws = 1

/-! ## The flow -/

/-- Cleanup actions registered through the job's `addCleanupCallback`. -/
inductive CleanupTag
  | serverClose
  | bundleCleanup
  | browserClose
deriving DecidableEq, Repr

/-- Cleanup actions registered through the global `registerCleanupJob`. -/
inductive GlobalCleanupTag
  | deleteBundleDir
deriving DecidableEq, Repr

/-- The observable events of one execution, in the order the source's
`await` structure produces them.  `openBrowserStart` is the creation of the
(unawaited) `internalOpenBrowser` promise; `openBrowserDone` is its
completion; `openBrowserAwaited` is the `await browserInstance` point. -/
inductive FlowEvent
  | ensureBrowserStart
  | ensureBrowserDone
  | openBrowserStart
  | openBrowserDone
  | bundleStart
  | bundleDone
  | serverStart
  | serverDone
  | openBrowserAwaited
  | resolveStart
  | resolveDone
  | validateOutput
  | mkdir
  | renderStart
  | renderDone
deriving DecidableEq, Repr

/-- The typed result of the flow. -/
inductive FlowResult
  | ok (glyph : Char) (relativePath : String)
  | outputExistsError
  | cancellationError
deriving DecidableEq, Repr

/-- The inputs of one execution: the job configuration fields the claims
depend on, the filesystem, the render duration reported by the renderer, and
the suspension point at which the unawaited browser-open promise happens to
complete (`0`: before bundling; `1`: between bundling and serving; `2` or
more: after serving, at the `await`). -/
structure StillFlowInput where
  compositionId : String
  imageFormatFromUi : Option StillFormat
  cliImageFormat : Option StillFormat
  configImageFormat : Option StillFormat
  userOutName : Option String
  overwrite : Bool
  cancelled : Bool
  cwd : FsPath
  fs : FS
  renderElapsed : Nat
  browserOpenDelay : Nat
deriving Repr

/-- The explicit override handed to the format decision: the UI-provided
format if present, otherwise the CLI flag. -/
def explicitImageFormat (inp : StillFlowInput) : Option StillFormat :=
  match inp.imageFormatFromUi with
  | some f => some f
  | none => inp.cliImageFormat

/-- The format the flow resolves for the job. -/
def resolvedStillImageFormat (inp : StillFlowInput) : StillFormat :=
  (determineFinalStillImageFormat (explicitImageFormat inp) inp.configImageFormat
    inp.userOutName).1

/-- The relative output location the flow resolves for the job. -/
def relativeOutputLocation (inp : StillFlowInput) : String :=
  getOutputLocation inp.compositionId (resolvedStillImageFormat inp) inp.userOutName

/-- The canonical absolute output path. -/
def absoluteOutputLocation (inp : StillFlowInput) : FsPath :=
  inp.cwd ++ [relativeOutputLocation inp]

/-- Whether the canonical absolute output path already exists. -/
abbrev outputAlreadyExists (inp : StillFlowInput) : Prop :=
  absoluteOutputLocation inp ∈ inp.fs.files

/-- Modelled from the spec: `getAndValidateAbsoluteOutputFile` (imported by
the source from `../get-cli-options`, which is not part of this snapshot)
fails with OutputExistsError exactly when the canonical absolute output path
exists and the overwrite flag is disabled. -/
abbrev outputValidationFails (inp : StillFlowInput) : Prop :=
  outputAlreadyExists inp ∧ inp.overwrite = false

/-- The registration order of the job's cleanup callbacks in the source:
server close, bundle cleanup, browser close. -/
def jobCleanupOrder : List CleanupTag :=
  [CleanupTag.serverClose, CleanupTag.bundleCleanup, CleanupTag.browserClose]

/-- The event trace of one execution, as a function of the slot at which the
browser-open promise completes, whether output validation fails, and whether
the cancel signal was set.  The trace mirrors the source order: ensure
browser (awaited), open browser (promise created, not awaited), bundle
(awaited), prepare server (awaited), `await browserInstance`, resolve the
composition (awaited), validate the output path, create the parent
directories, render (awaited; fails at its cancellation checkpoint when the
signal is set). -/
def flowEvents (d : Nat) (failsValidation cancelled : Bool) : List FlowEvent :=
  [FlowEvent.ensureBrowserStart, FlowEvent.ensureBrowserDone, FlowEvent.openBrowserStart]
    ++ (if d = 0 then [FlowEvent.openBrowserDone] else [])
    ++ [FlowEvent.bundleStart, FlowEvent.bundleDone]
    ++ (if d = 1 then [FlowEvent.openBrowserDone] else [])
    ++ [FlowEvent.serverStart, FlowEvent.serverDone]
    ++ (if d = 0 ∨ d = 1 then [] else [FlowEvent.openBrowserDone])
    ++ [FlowEvent.openBrowserAwaited, FlowEvent.resolveStart, FlowEvent.resolveDone,
        FlowEvent.validateOutput]
    ++ (if failsValidation then []
        else [FlowEvent.mkdir, FlowEvent.renderStart]
          ++ (if cancelled then [] else [FlowEvent.renderDone]))

/-- The observable behaviour of one execution of the flow. -/
structure FlowOutcome where
  events : List FlowEvent
  jobCleanups : List CleanupTag
  globalCleanups : List GlobalCleanupTag
  result : FlowResult
  fs : FS
  fsAtRender : Option FS
  renderingWrites : List RenderingState
deriving DecidableEq, Repr

/-- The index of the first occurrence of an event in a trace. -/
def idxOf (t : List FlowEvent) (e : FlowEvent) : Nat :=
  t.findIdx (fun x => decide (x = e))

/-- Both events occur in the trace and the first occurs strictly before the
second. -/
abbrev occursBefore (t : List FlowEvent) (a b : FlowEvent) : Prop :=
  a ∈ t ∧ b ∈ t ∧ idxOf t a < idxOf t b

/-- The still-render flow (`renderStillFlow` in the source), embedded as a
pure function from the execution's input to its observable behaviour.  The
external collaborators before the render never fail in this model; the
renderer races completion against the cancel signal (spec section 4.4), so a
pre-set signal makes it fail with a CancellationError, and on success it
writes the output file.  The `exists` check driving the final glyph is the
source's `existsSync(absoluteOutputLocation)`. -/
def renderStillFlow (inp : StillFlowInput) : FlowOutcome :=
  if outputValidationFails inp then
    { events := flowEvents inp.browserOpenDelay true inp.cancelled,
      jobCleanups := jobCleanupOrder,
      globalCleanups := [GlobalCleanupTag.deleteBundleDir],
      result := FlowResult.outputExistsError,
      fs := inp.fs,
      fsAtRender := none,
      renderingWrites := [] }
  else if inp.cancelled then
    { events := flowEvents inp.browserOpenDelay false true,
      jobCleanups := jobCleanupOrder,
      globalCleanups := [GlobalCleanupTag.deleteBundleDir],
      result := FlowResult.cancellationError,
      fs := mkdirRecursive (absoluteOutputLocation inp).dropLast inp.fs,
      fsAtRender := some (mkdirRecursive (absoluteOutputLocation inp).dropLast inp.fs),
      renderingWrites :=
        [{ frames := 0, totalFrames := 1, doneIn := none,
           timeRemainingInMilliseconds := none }] }
  else
    { events := flowEvents inp.browserOpenDelay false false,
      jobCleanups := jobCleanupOrder,
      globalCleanups := [GlobalCleanupTag.deleteBundleDir],
      result := FlowResult.ok (if outputAlreadyExists inp then '○' else '+')
        (relativeOutputLocation inp),
      fs := { files := (mkdirRecursive (absoluteOutputLocation inp).dropLast inp.fs).files
                ++ [absoluteOutputLocation inp],
              dirs := (mkdirRecursive (absoluteOutputLocation inp).dropLast inp.fs).dirs },
      fsAtRender := some (mkdirRecursive (absoluteOutputLocation inp).dropLast inp.fs),
      renderingWrites :=
        [{ frames := 0, totalFrames := 1, doneIn := none,
           timeRemainingInMilliseconds := none },
         { frames := 1, totalFrames := 1, doneIn := some inp.renderElapsed,
           timeRemainingInMilliseconds := none }] }

/-! ## Concrete executions -/

/-- A job targeting composition "MyComp", frame 0, no explicit output path,
no explicit format, fresh filesystem, overwrite enabled. -/
def baseInput : StillFlowInput where
  compositionId := "MyComp"
  imageFormatFromUi := none
  cliImageFormat := none
  configImageFormat := none
  userOutName := none
  overwrite := true
  cancelled := false
  cwd := ["project"]
  fs := { files := [], dirs := [] }
  renderElapsed := 42
  browserOpenDelay := 0

/-- The base job with the output file already present and overwrite
disabled. -/
def existsNoOverwriteInput : StillFlowInput :=
  { baseInput with
      overwrite := false,
      fs := { files := [["project", "MyComp.png"]], dirs := [] } }

/-- The base job with the cancellation token already in the cancelled
state before the flow starts. -/
def cancelledInput : StillFlowInput := { baseInput with cancelled := true }

/-- The base job in an execution where the browser-open promise only
completes at the point the flow awaits it, after server preparation. -/
def slowBrowserInput : StillFlowInput := { baseInput with browserOpenDelay := 5 }

/-- The base job run a second time, against the filesystem the first run
left behind. -/
def secondRunInput : StillFlowInput := { baseInput with fs := (renderStillFlow baseInput).fs }

/-- A separate fresh job used by witnesses. -/
def witnessInput : StillFlowInput := { baseInput with compositionId := "Other" }

/-- A sample progress computation used by witnesses. -/
def natProgressOutput (n : Nat) (_ : Bool) : ProgressOutput :=
  { output := "bar", message := "msg", progress := n }

/-! ## Helper lemmas -/

/-- Once the browser-completion slot is at least two, the trace no longer
depends on its exact value. -/
theorem flowEvents_ge2 (d : Nat) (h0 : d ≠ 0) (h1 : d ≠ 1) (fv c : Bool) :
    flowEvents d fv c = flowEvents 2 fv c := by
  have hor : ¬(d = 0 ∨ d = 1) := by tauto
  simp [flowEvents, h0, h1, hor]

/-- The preparation stages occur in every trace. -/
theorem flowEvents_mem_stages (d : Nat) (fv c : Bool) :
    FlowEvent.ensureBrowserStart ∈ flowEvents d fv c ∧
    FlowEvent.bundleStart ∈ flowEvents d fv c ∧
    FlowEvent.serverStart ∈ flowEvents d fv c ∧
    FlowEvent.resolveStart ∈ flowEvents d fv c ∧
    FlowEvent.resolveDone ∈ flowEvents d fv c := by
  by_cases h0 : d = 0
  · subst h0; cases fv <;> cases c <;> decide
  · by_cases h1 : d = 1
    · subst h1; cases fv <;> cases c <;> decide
    · rw [flowEvents_ge2 d h0 h1]; cases fv <;> cases c <;> decide

/-- When output validation fails, no directory is created and the render is
never started. -/
theorem flowEvents_failsValidation (d : Nat) (c : Bool) :
    FlowEvent.mkdir ∉ flowEvents d true c ∧
    FlowEvent.renderStart ∉ flowEvents d true c := by
  by_cases h0 : d = 0
  · subst h0; cases c <;> decide
  · by_cases h1 : d = 1
    · subst h1; cases c <;> decide
    · rw [flowEvents_ge2 d h0 h1]; cases c <;> decide

/-- When output validation passes, the render is invoked; when the signal is
cancelled it never completes. -/
theorem flowEvents_render (d : Nat) (c : Bool) :
    FlowEvent.renderStart ∈ flowEvents d false c ∧
    (c = true → FlowEvent.renderDone ∉ flowEvents d false c) := by
  by_cases h0 : d = 0
  · subst h0; cases c <;> decide
  · by_cases h1 : d = 1
    · subst h1; cases c <;> decide
    · rw [flowEvents_ge2 d h0 h1]; cases c <;> decide

/-- The sequencing the `await` structure guarantees: the browser-open
promise is created before bundling; bundling completes before serving
begins; serving completes before resolution begins; the browser open
completes before resolution begins. -/
theorem flowEvents_order (d : Nat) (fv c : Bool) :
    occursBefore (flowEvents d fv c) FlowEvent.openBrowserStart FlowEvent.bundleStart ∧
    occursBefore (flowEvents d fv c) FlowEvent.bundleDone FlowEvent.serverStart ∧
    occursBefore (flowEvents d fv c) FlowEvent.serverDone FlowEvent.resolveStart ∧
    occursBefore (flowEvents d fv c) FlowEvent.openBrowserDone FlowEvent.resolveStart := by
  by_cases h0 : d = 0
  · subst h0; cases fv <;> cases c <;> decide
  · by_cases h1 : d = 1
    · subst h1; cases fv <;> cases c <;> decide
    · rw [flowEvents_ge2 d h0 h1]; cases fv <;> cases c <;> decide

/-- When the render is invoked, it is invoked after composition resolution
and after the parent directories were created. -/
theorem flowEvents_render_order (d : Nat) (c : Bool) :
    occursBefore (flowEvents d false c) FlowEvent.resolveDone FlowEvent.renderStart ∧
    occursBefore (flowEvents d false c) FlowEvent.mkdir FlowEvent.renderStart := by
  by_cases h0 : d = 0
  · subst h0; cases c <;> decide
  · by_cases h1 : d = 1
    · subst h1; cases c <;> decide
    · rw [flowEvents_ge2 d h0 h1]; cases c <;> decide

/-- Every prefix of the target directory is present after
`mkdirRecursive`. -/
theorem mkdirRecursive_mem (fs : FS) (p q : FsPath) (hq : q ∈ prefixesOf p) :
    q ∈ (mkdirRecursive p fs).dirs := by
  by_cases h : q ∈ fs.dirs
  · exact List.mem_append.mpr (Or.inl h)
  · exact List.mem_append.mpr (Or.inr (List.mem_filter.mpr ⟨hq, decide_eq_true h⟩))

/-- `mkdirRecursive` is the identity when the whole directory chain is
already present. -/
theorem mkdirRecursive_noop (fs : FS) (p : FsPath)
    (h : ∀ q ∈ prefixesOf p, q ∈ fs.dirs) : mkdirRecursive p fs = fs := by
  have hf : (prefixesOf p).filter (fun q => decide (q ∉ fs.dirs)) = [] := by
    apply List.filter_eq_nil_iff.mpr
    intro a ha
    simp [h a ha]
  unfold mkdirRecursive
  rw [hf]
  simp

/-- Folding `register` over a list of callbacks appends it to the
accumulated callback list without firing anything. -/
theorem registerAll_foldl {α : Type} (acc : List α) (cbs : List α) :
    cbs.foldl CleanupRegistry.register { callbacks := acc, hasRun := false } =
      { callbacks := acc ++ cbs, hasRun := false } := by
  induction cbs generalizing acc with
  | nil => simp
  | cons c t ih => simp [CleanupRegistry.register, ih]

/-- After the registry has fired once, further invocations of `runAll` do
not change it and execute nothing. -/
theorem runAllTimes_after {α : Type} (n : Nat) (cbs : List α) :
    runAllTimes n { callbacks := cbs, hasRun := true } =
      ({ callbacks := cbs, hasRun := true }, []) := by
  induction n with
  | zero => rfl
  | succ m ih => simp [runAllTimes, CleanupRegistry.runAll, ih]

/-! ## Claim theorems -/

/-- Claim C3: the still image format decision is a pure first-defined-wins
priority merge over the fixed tier order — explicit caller/CLI override, then
project-level configured default, then inference from an explicit output
filename's extension, then built-in fallback; for explicit override png,
project default jpeg and output filename "out.webp", the resolved format is
png with the recorded source labelling the explicit-override tier. -/
theorem stillImageFormat_priority_merge :
    (∀ e c o, determineFinalStillImageFormat e c o =
      firstDefined
        [(e, FormatSource.explicitOverride), (c, FormatSource.configDefault),
          (inferFormatFromOutName o, FormatSource.outNameExtension)]
        (StillFormat.png, FormatSource.builtinDefault)) ∧
    determineFinalStillImageFormat (some StillFormat.png) (some StillFormat.jpeg)
      (some "out.webp") = (StillFormat.png, FormatSource.explicitOverride) := by
  constructor
  · intro e c o
    cases e <;> cases c <;> cases hi : inferFormatFromOutName o <;>
      simp [determineFinalStillImageFormat, firstDefined, hi]
  · rfl

/-- Claim C5: for every list of registered cleanup callbacks and every
N ≥ 1, calling runAll N times executes each registered callback exactly once
in total, in reverse registration order; invocations after the first perform
no work. -/
theorem cleanupRegistry_runAll_exactly_once {α : Type} (cbs : List α) (n : Nat)
    (h : 1 ≤ n) :
    runAllTimes n (registerAll cbs) =
      ({ callbacks := cbs, hasRun := true }, cbs.reverse) := by
  obtain ⟨m, rfl⟩ : ∃ m, n = m + 1 := ⟨n - 1, by omega⟩
  have hreg : registerAll cbs = { callbacks := cbs, hasRun := false } := by
    simpa [registerAll] using registerAll_foldl [] cbs
  rw [hreg]
  simp [runAllTimes, CleanupRegistry.runAll, runAllTimes_after]

/-- Witness for C5 at a concrete registration list and N = 3. -/
theorem cleanupRegistry_runAll_exactly_once_witness :
    1 ≤ 3 ∧ runAllTimes 3 (registerAll [10, 20, 30]) =
      ({ callbacks := [10, 20, 30], hasRun := true }, [30, 20, 10]) :=
  ⟨by decide, cleanupRegistry_runAll_exactly_once [10, 20, 30] 3 (by decide)⟩

/-- Claim C6: each progress update computes the console text and the
structured observer event from one evaluation of the progress computation
over the same aggregate snapshot, and repeated renders with an unchanged
aggregate produce identical output. -/
theorem updateRenderProgress_pure_single_snapshot {A : Type}
    (make : A → Bool → ProgressOutput) (u : Bool) (agg : A) (n p i : Bool) :
    (updateRenderProgress make u agg n p i).2 =
      { message := (make agg i).message, value := (make agg i).progress,
        snapshot := agg } ∧
    (p = true → (updateRenderProgress make u agg n p i).1 =
      some { text := if u = true then (make agg i).message else (make agg i).output,
             newline := n }) ∧
    (p = false → (updateRenderProgress make u agg n p i).1 = none) ∧
    (∀ agg2, agg = agg2 →
      updateRenderProgress make u agg n p i = updateRenderProgress make u agg2 n p i) := by
  refine ⟨rfl, ?_, ?_, ?_⟩
  · intro hp; subst hp; rfl
  · intro hp; subst hp; rfl
  · intro agg2 hagg; subst hagg; rfl

/-- Witness for C6 at a concrete progress computation and aggregate. -/
theorem updateRenderProgress_pure_single_snapshot_witness :
    (updateRenderProgress natProgressOutput true 7 false true false).1 =
      some { text := "msg", newline := false } := by
  have h :=
    (updateRenderProgress_pure_single_snapshot natProgressOutput true 7 false true false).2.1 rfl
  simpa [natProgressOutput] using h

/-- Claim C1: if the canonical absolute output path already exists and the
overwrite flag is false, the flow fails with OutputExistsError before any
directory is created and the render collaborator is never invoked. -/
theorem outputExists_noOverwrite_failsEarly (inp : StillFlowInput)
    (hex : outputAlreadyExists inp) (hov : inp.overwrite = false) :
    (renderStillFlow inp).result = FlowResult.outputExistsError ∧
    (renderStillFlow inp).fs = inp.fs ∧
    FlowEvent.mkdir ∉ (renderStillFlow inp).events ∧
    FlowEvent.renderStart ∉ (renderStillFlow inp).events := by
  unfold renderStillFlow
  rw [if_pos (⟨hex, hov⟩ : outputValidationFails inp)]
  obtain ⟨hm, hr⟩ := flowEvents_failsValidation inp.browserOpenDelay inp.cancelled
  exact ⟨rfl, rfl, hm, hr⟩

/-- Witness for C1 at a job whose output file is present and whose overwrite
flag is disabled. -/
theorem outputExists_noOverwrite_failsEarly_witness :
    (renderStillFlow existsNoOverwriteInput).result = FlowResult.outputExistsError ∧
    (renderStillFlow existsNoOverwriteInput).fs = existsNoOverwriteInput.fs ∧
    FlowEvent.mkdir ∉ (renderStillFlow existsNoOverwriteInput).events ∧
    FlowEvent.renderStart ∉ (renderStillFlow existsNoOverwriteInput).events :=
  outputExists_noOverwrite_failsEarly existsNoOverwriteInput (by decide) (by decide)

/-- Claim C2 counterexample: with the cancellation token already cancelled
before the flow starts, the stages still execute — browser acquisition,
bundling, serving, composition resolution and even the render invocation all
appear in the trace, refuting "zero stages execute". -/
theorem precancelled_token_counterexample :
    cancelledInput.cancelled = true ∧
    FlowEvent.ensureBrowserStart ∈ (renderStillFlow cancelledInput).events ∧
    FlowEvent.bundleStart ∈ (renderStillFlow cancelledInput).events ∧
    FlowEvent.serverStart ∈ (renderStillFlow cancelledInput).events ∧
    FlowEvent.resolveStart ∈ (renderStillFlow cancelledInput).events ∧
    FlowEvent.renderStart ∈ (renderStillFlow cancelledInput).events := by
  refine ⟨rfl, ?_, ?_, ?_, ?_, ?_⟩ <;> decide

/-- Claim C2 amended: the flow never consults the cancellation token before
a stage, so a pre-cancelled token still lets every preparation stage execute
and the render be invoked; the render collaborator, which receives the
cancel signal, fails at its cancellation checkpoint, the result is a
CancellationError, the render never completes, and running the cleanup
registry afterwards executes the three registered callbacks in reverse
registration order without error. -/
theorem precancelled_token_runs_all_stages (inp : StillFlowInput)
    (hc : inp.cancelled = true) (hv : ¬ outputValidationFails inp) :
    (renderStillFlow inp).result = FlowResult.cancellationError ∧
    FlowEvent.ensureBrowserStart ∈ (renderStillFlow inp).events ∧
    FlowEvent.bundleStart ∈ (renderStillFlow inp).events ∧
    FlowEvent.serverStart ∈ (renderStillFlow inp).events ∧
    FlowEvent.resolveStart ∈ (renderStillFlow inp).events ∧
    FlowEvent.renderStart ∈ (renderStillFlow inp).events ∧
    FlowEvent.renderDone ∉ (renderStillFlow inp).events ∧
    CleanupRegistry.runAll (registerAll (renderStillFlow inp).jobCleanups) =
      ({ callbacks := jobCleanupOrder, hasRun := true },
        [CleanupTag.browserClose, CleanupTag.bundleCleanup, CleanupTag.serverClose]) := by
  unfold renderStillFlow
  rw [if_neg hv, if_pos hc]
  obtain ⟨h1, h2, h3, h4, -⟩ := flowEvents_mem_stages inp.browserOpenDelay false true
  obtain ⟨h6, h7⟩ := flowEvents_render inp.browserOpenDelay true
  exact ⟨rfl, h1, h2, h3, h4, h6, h7 rfl, rfl⟩

/-- Witness for the amended C2 at a concrete pre-cancelled job. -/
theorem precancelled_token_runs_all_stages_witness :
    (renderStillFlow cancelledInput).result = FlowResult.cancellationError :=
  (precancelled_token_runs_all_stages cancelledInput rfl (by decide)).1

/-- Claim C4 counterexample: on the execution whose cancel signal is already
set, exactly one rendering-state write happens (the initial one), so frames
never transitions from 0 to totalFrames and doneIn is never set — the
exactly-once parts of the claim fail for this execution of the flow. -/
theorem rendering_invariant_counterexample :
    (renderStillFlow cancelledInput).renderingWrites =
      [{ frames := 0, totalFrames := 1, doneIn := none,
         timeRemainingInMilliseconds := none }] ∧
    transitionCount (renderStillFlow cancelledInput).renderingWrites = 0 ∧
    doneInWriteCount (renderStillFlow cancelledInput).renderingWrites = 0 ∧
    ¬ stillRenderingInvariant (renderStillFlow cancelledInput).renderingWrites := by
  refine ⟨by decide, by decide, by decide, ?_⟩
  intro hinv
  exact absurd hinv.2.2.2.1 (by decide)

/-- Claim C4 amended: over every execution of the flow the rendering-state
writes have monotonically non-decreasing frames, totalFrames equal to 1, and
doneIn non-null exactly when frames equals totalFrames; on every execution
in which the flow completes successfully, frames transitions 0 → totalFrames
exactly once and doneIn is set exactly once. -/
theorem rendering_invariant_amended (inp : StillFlowInput) :
    framesMonotone (renderStillFlow inp).renderingWrites = true ∧
    (∀ w ∈ (renderStillFlow inp).renderingWrites, w.totalFrames = 1) ∧
    (∀ w ∈ (renderStillFlow inp).renderingWrites,
      (w.doneIn.isSome = true ↔ w.frames = w.totalFrames)) ∧
    (∀ g r, (renderStillFlow inp).result = FlowResult.ok g r →
      transitionCount (renderStillFlow inp).renderingWrites = 1 ∧
      doneInWriteCount (renderStillFlow inp).renderingWrites = 1) := by
  unfold renderStillFlow
  split
  · refine ⟨rfl, by simp, by simp, ?_⟩
    intro g r hres
    simp at hres
  · split
    · refine ⟨rfl, by simp, by simp [framesMonotone], ?_⟩
      intro g r hres
      simp at hres
    · refine ⟨rfl, by simp, ?_, ?_⟩
      · intro w hw
        simp at hw
        rcases hw with hw | hw <;> subst hw <;> simp
      · intro g r _
        exact ⟨rfl, rfl⟩

/-- Witness for the amended C4 at a successfully completing job. -/
theorem rendering_invariant_amended_witness :
    transitionCount (renderStillFlow baseInput).renderingWrites = 1 ∧
    doneInWriteCount (renderStillFlow baseInput).renderingWrites = 1 :=
  (rendering_invariant_amended baseInput).2.2.2 '+' "MyComp.png" (by decide)

/-- Claim C7 counterexample: in an execution where the browser-open promise
only completes at the point the flow awaits it, bundling begins before
browser acquisition completes — the unawaited `internalOpenBrowser` promise
overlaps with bundling and serving, refuting strict stage sequencing. -/
theorem stage_sequencing_counterexample :
    FlowEvent.bundleStart ∈ (renderStillFlow slowBrowserInput).events ∧
    FlowEvent.openBrowserDone ∈ (renderStillFlow slowBrowserInput).events ∧
    idxOf (renderStillFlow slowBrowserInput).events FlowEvent.bundleStart <
      idxOf (renderStillFlow slowBrowserInput).events FlowEvent.openBrowserDone ∧
    ¬ occursBefore (renderStillFlow slowBrowserInput).events
        FlowEvent.openBrowserDone FlowEvent.bundleStart := by
  refine ⟨by decide, by decide, by decide, ?_⟩
  intro hob
  exact absurd hob.2.2 (by decide)

/-- Claim C7 amended: bundling completes before serving begins, serving
before composition resolution begins, and resolution before rendering
begins; browser opening, however, is only started before bundling and is
guaranteed complete only by the await that precedes composition resolution,
so it may overlap bundling and serving. -/
theorem stage_sequencing_amended (inp : StillFlowInput) :
    occursBefore (renderStillFlow inp).events FlowEvent.openBrowserStart
      FlowEvent.bundleStart ∧
    occursBefore (renderStillFlow inp).events FlowEvent.bundleDone
      FlowEvent.serverStart ∧
    occursBefore (renderStillFlow inp).events FlowEvent.serverDone
      FlowEvent.resolveStart ∧
    occursBefore (renderStillFlow inp).events FlowEvent.openBrowserDone
      FlowEvent.resolveStart ∧
    (FlowEvent.renderStart ∈ (renderStillFlow inp).events →
      occursBefore (renderStillFlow inp).events FlowEvent.resolveDone
        FlowEvent.renderStart) := by
  unfold renderStillFlow
  split
  · obtain ⟨o1, o2, o3, o4⟩ := flowEvents_order inp.browserOpenDelay true inp.cancelled
    obtain ⟨hm, hr⟩ := flowEvents_failsValidation inp.browserOpenDelay inp.cancelled
    exact ⟨o1, o2, o3, o4, fun hmem => absurd hmem hr⟩
  · split
    · obtain ⟨o1, o2, o3, o4⟩ := flowEvents_order inp.browserOpenDelay false true
      obtain ⟨r1, -⟩ := flowEvents_render_order inp.browserOpenDelay true
      exact ⟨o1, o2, o3, o4, fun _ => r1⟩
    · obtain ⟨o1, o2, o3, o4⟩ := flowEvents_order inp.browserOpenDelay false false
      obtain ⟨r1, -⟩ := flowEvents_render_order inp.browserOpenDelay false
      exact ⟨o1, o2, o3, o4, fun _ => r1⟩

/-- Witness for the amended C7 at a job that reaches the render. -/
theorem stage_sequencing_amended_witness :
    occursBefore (renderStillFlow baseInput).events FlowEvent.resolveDone
      FlowEvent.renderStart :=
  (stage_sequencing_amended baseInput).2.2.2.2 (by decide)

/-- Claim C8: with no explicit output path the resolved relative path is the
composition id plus the chosen format's extension, and the summary glyph is
chosen by whether the output existed before the write — a first run against
a fresh path yields the new glyph, an identical second run against the same
path yields the pre-existing glyph. -/
theorem defaultOutputLocation_and_glyph :
    (∀ inp : StillFlowInput, ¬ outputValidationFails inp → inp.cancelled = false →
      (renderStillFlow inp).result =
        FlowResult.ok (if outputAlreadyExists inp then '○' else '+')
          (relativeOutputLocation inp)) ∧
    relativeOutputLocation baseInput = "MyComp.png" ∧
    (renderStillFlow baseInput).result = FlowResult.ok '+' "MyComp.png" ∧
    (renderStillFlow secondRunInput).result = FlowResult.ok '○' "MyComp.png" := by
  refine ⟨?_, by decide, by decide, by decide⟩
  intro inp hv hc
  unfold renderStillFlow
  rw [if_neg hv, if_neg (by simp [hc])]

/-- Witness for C8 at a fresh job. -/
theorem defaultOutputLocation_and_glyph_witness :
    (renderStillFlow witnessInput).result =
      FlowResult.ok (if outputAlreadyExists witnessInput then '○' else '+')
        (relativeOutputLocation witnessInput) :=
  defaultOutputLocation_and_glyph.1 witnessInput (by decide) rfl

/-- Claim C9: whenever the output path is accepted, the full parent
directory chain of the absolute output path exists before the render's write
attempt begins, and the directory creation is safe to perform when the
directories are already present. -/
theorem parentDirs_exist_before_render (inp : StillFlowInput)
    (hv : ¬ outputValidationFails inp) :
    (renderStillFlow inp).fsAtRender =
      some (mkdirRecursive (absoluteOutputLocation inp).dropLast inp.fs) ∧
    (∀ q ∈ prefixesOf (absoluteOutputLocation inp).dropLast,
      q ∈ (mkdirRecursive (absoluteOutputLocation inp).dropLast inp.fs).dirs) ∧
    (FlowEvent.renderStart ∈ (renderStillFlow inp).events →
      occursBefore (renderStillFlow inp).events FlowEvent.mkdir
        FlowEvent.renderStart) ∧
    (∀ fs p, (∀ q ∈ prefixesOf p, q ∈ fs.dirs) → mkdirRecursive p fs = fs) := by
  refine ⟨?_, ?_, ?_, fun fs p h => mkdirRecursive_noop fs p h⟩
  · unfold renderStillFlow
    rw [if_neg hv]
    split <;> rfl
  · intro q hq
    exact mkdirRecursive_mem inp.fs (absoluteOutputLocation inp).dropLast q hq
  · unfold renderStillFlow
    rw [if_neg hv]
    split
    · intro _
      exact (flowEvents_render_order inp.browserOpenDelay true).2
    · intro _
      exact (flowEvents_render_order inp.browserOpenDelay false).2

/-- Witness for C9 at a fresh job with overwrite enabled. -/
theorem parentDirs_exist_before_render_witness :
    (renderStillFlow baseInput).fsAtRender =
      some (mkdirRecursive (absoluteOutputLocation baseInput).dropLast baseInput.fs) :=
  (parentDirs_exist_before_render baseInput (by decide)).1

/-- Claim C10: on every run (each of which reaches composition resolution),
exactly three cleanup callbacks are registered through the job's
addCleanupCallback, in registration order server close, bundle cleanup,
browser close; the temporary bundle directory's deletion is registered with
the separate global registry only. -/
theorem cleanup_registration_shape (inp : StillFlowInput) :
    (renderStillFlow inp).jobCleanups =
      [CleanupTag.serverClose, CleanupTag.bundleCleanup, CleanupTag.browserClose] ∧
    (renderStillFlow inp).globalCleanups = [GlobalCleanupTag.deleteBundleDir] ∧
    FlowEvent.resolveDone ∈ (renderStillFlow inp).events := by
  unfold renderStillFlow
  split
  · exact ⟨rfl, rfl, (flowEvents_mem_stages inp.browserOpenDelay true inp.cancelled).2.2.2.2⟩
  · split
    · exact ⟨rfl, rfl, (flowEvents_mem_stages inp.browserOpenDelay false true).2.2.2.2⟩
    · exact ⟨rfl, rfl, (flowEvents_mem_stages inp.browserOpenDelay false false).2.2.2.2⟩

end RemotionStill
